import Mathlib

/-!
Shallow embedding of the Azure AI Agent Remote MCP backend
(`agent.py` and `app.py`): the run-polling / tool-approval orchestrator
`send_message` and the `/chat` handler `chat`.

HTTP traffic is modelled by an explicit environment (`Env`) that supplies the
response to each request the code issues; the functions additionally return a
`Trace` of their observable effects (status GETs, approval submissions,
`time.sleep(1)` calls, message POST, run POST).
-/

namespace AzureMcp

/-- A pending tool call as found under `required_action`'s `tool_calls`:
the code reads `tc.get('type')` (so `type` may be absent) and `tc["id"]`. -/
structure ToolCall where
  ty : Option String
  id : String
deriving Repr, DecidableEq

/-- One approval record of the `tool_approvals` list posted to
`submit_tool_outputs`: `{"tool_call_id": ..., "approve": ..., "headers": ...}`. -/
structure ToolApproval where
  tool_call_id : String
  approve : Bool
  headers : List (String × String)
deriving Repr, DecidableEq

/-- The `required_action` object: its `type` string (the code defaults it to
`""` via `.get('type', '')`), and the two possible detail fields.  A field is
`none` when absent or a falsy `{}`; `some tcs` stands for a (truthy) dict whose
`tool_calls` entry is `tcs` (`.get('tool_calls', [])` makes a missing
`tool_calls` the same as `[]`). -/
structure RequiredAction where
  raType : String
  submit_tool_outputs : Option (List ToolCall)
  submit_tool_approval : Option (List ToolCall)
deriving Repr, DecidableEq

/-- The body of a 200 run-status response: `status` and the optional
`required_action` payload. -/
structure RunData where
  status : String
  required_action : Option RequiredAction
deriving Repr, DecidableEq

/-- `text` object of a message content element (`{'value': ...}`). -/
structure TextObj where
  value : Option String
deriving Repr, DecidableEq

/-- One element of a message's `content` list; `text` may be absent. -/
structure ContentItem where
  text : Option TextObj
deriving Repr, DecidableEq

/-- A message returned by the messages endpoint: `role` and `content` list. -/
structure Msg where
  role : String
  content : List ContentItem
deriving Repr, DecidableEq

/-- A Python exception escaping the unguarded dynamic accesses. -/
inductive Exc where
  | indexError
  | keyError (k : String)
deriving Repr, DecidableEq

/-- `str(e)`, as the Flask handler renders it into the 500 error body. -/
def Exc.msg : Exc → String
  | .indexError => "list index out of range"
  | .keyError k => "'" ++ k ++ "'"

/-- An HTTP response to one run-status poll: the status code, and the parsed
body (consulted by the code only when the code is 200). -/
structure PollResp where
  code : Nat
  run : RunData
deriving Repr, DecidableEq

/-- The environment: the responses the remote Azure endpoint returns to each
request the backend issues. -/
structure Env where
  /-- status code of `POST /threads/{id}/messages` (adding the user message) -/
  addMessageCode : Nat
  /-- status code of `POST /threads/{id}/runs` -/
  createRunCode : Nat
  /-- response to the i-th `GET` of the run status -/
  poll : Nat → PollResp
  /-- status code of `GET /threads/{id}/messages` after completion -/
  messagesCode : Nat
  /-- `data` of the messages response -/
  messages : List Msg
  /-- status code of the i-th `POST .../submit_tool_outputs` -/
  submitCode : Nat → Nat
  /-- result of `create_thread()`: a thread id, or `none` (it returns `None`
  on a non-2xx response or an exception) -/
  createThreadResult : Option String

/-- Observable effects of one `send_message` call. -/
structure Trace where
  /-- number of run-status GET requests issued -/
  statusRequests : Nat
  /-- the `tool_approvals` payload of each approval submission, in order -/
  submissions : List (List ToolApproval)
  /-- number of `time.sleep(1)` calls (each a fixed 1-time-unit delay) -/
  sleeps : Nat
  /-- number of run-creation POSTs issued -/
  runCreates : Nat
  /-- number of user-message POSTs issued -/
  msgPosts : Nat
deriving Repr, DecidableEq

def emptyTrace : Trace := ⟨0, [], 0, 0, 0⟩

/-- The fixed fallback string `send_message` returns after the loop. -/
def fallbackMsg : String := "Sorry, I couldn't process your request at the moment."

/-- Builds `tool_approvals` from `tool_calls`: one record per call whose
`type` is `'mcp'`, always `approve: True` with empty `headers`. -/
def mkApprovals (tcs : List ToolCall) : List ToolApproval :=
  tcs.filterMap fun tc =>
    if tc.ty = some "mcp" then some ⟨tc.id, true, []⟩ else none

/-- `msg['content'][0]['text']['value']` with Python's exceptions. -/
def extractContent (m : Msg) : Except Exc String :=
  match m.content with
  | [] => .error .indexError
  | c :: _ =>
    match c.text with
    | none => .error (.keyError "text")
    | some t =>
      match t.value with
      | none => .error (.keyError "value")
      | some v => .ok v

/-- The completed-branch scan `for msg in messages: if msg['role'] ==
'assistant': return msg['content'][0]['text']['value']`: the first
assistant message's extraction result, or `none` when no assistant-role
message exists (the code then falls through to `break`). -/
def scanMessages : List Msg → Option (Except Exc String)
  | [] => none
  | m :: rest =>
    if m.role = "assistant" then some (extractContent m) else scanMessages rest

namespace Agent

/-- `agent.py`'s `requires_action` dispatch on `required_action['type']`: the
selected `tool_calls` list — read from `submit_tool_outputs` for the GA name,
from `submit_tool_approval` for the legacy preview name — or `none` for an
unrecognised type (the code prints `Unknown required_action` and breaks).
The two branches of the source are identical except for this field choice. -/
def raToolCalls (ra : RequiredAction) : Option (List ToolCall) :=
  if ra.raType = "submit_tool_outputs" then some (ra.submit_tool_outputs.getD [])
  else if ra.raType = "submit_tool_approval" then some (ra.submit_tool_approval.getD [])
  else none

/-- `agent.py`'s polling loop `for _ in range(max_attempts)` with
`max_attempts = 30` as the initial fuel.  `p` indexes the next status poll,
`s` the next approval submission, `tr` accumulates the trace.  Exhausting the
fuel, or any `break`, yields the fallback string. -/
def pollLoop (env : Env) : Nat → Nat → Nat → Trace → (Except Exc (Option String)) × Trace
  | 0, _, _, tr => (.ok (some fallbackMsg), tr)
  | fuel + 1, p, s, tr =>
    let r := env.poll p
    let tr1 : Trace := { tr with statusRequests := tr.statusRequests + 1 }
    if r.code = 200 then
      if r.run.status = "completed" then
        if env.messagesCode = 200 then
          match scanMessages env.messages with
          | some (Except.ok v) => (.ok (some v), tr1)
          | some (Except.error e) => (.error e, tr1)
          | none => (.ok (some fallbackMsg), tr1)
        else (.ok (some fallbackMsg), tr1)
      else if r.run.status = "requires_action" then
        let ra := r.run.required_action.getD ⟨"", none, none⟩
        match raToolCalls ra with
        | none => (.ok (some fallbackMsg), tr1)
        | some tool_calls =>
          let tool_approvals := mkApprovals tool_calls
          if tool_approvals ≠ [] then
            let tr2 : Trace :=
              { tr1 with submissions := tr1.submissions ++ [tool_approvals] }
            if env.submitCode s ≠ 200 then (.ok (some fallbackMsg), tr2)
            else
              pollLoop env fuel (p + 1) (s + 1) { tr2 with sleeps := tr2.sleeps + 1 }
          else (.ok (some fallbackMsg), tr1)
      else if r.run.status = "failed" ∨ r.run.status = "cancelled"
          ∨ r.run.status = "expired" then
        (.ok (some fallbackMsg), tr1)
      else
        pollLoop env fuel (p + 1) s { tr1 with sleeps := tr1.sleeps + 1 }
    else
      pollLoop env fuel (p + 1) s { tr1 with sleeps := tr1.sleeps + 1 }

/-- `agent.py`'s `send_message`: post the user message, create the run, then
poll.  Result `.ok none` is Python's `return None`; `.ok (some s)` a returned
string; `.error e` an escaping exception. -/
def sendMessage (env : Env) : (Except Exc (Option String)) × Trace :=
  if env.addMessageCode = 200 ∨ env.addMessageCode = 201 then
    if env.createRunCode = 200 ∨ env.createRunCode = 201 then
      pollLoop env 30 0 0 { emptyTrace with msgPosts := 1, runCreates := 1 }
    else (.ok none, { emptyTrace with msgPosts := 1, runCreates := 1 })
  else (.ok none, { emptyTrace with msgPosts := 1 })

/-- The JSON responses of the `/chat` route. -/
inductive ChatResp where
  | ok200 (response : String) (thread_id : String)
  | err (code : Nat) (error : String)
deriving Repr, DecidableEq

/-- Trace of one `/chat` request: thread creations attempted and the
orchestrator trace (zeros when `send_message` was never called). -/
structure ChatTrace where
  threadCreates : Nat
  agent : Trace
deriving Repr, DecidableEq

/-- Outcome of one `/chat` request: the HTTP response, the new value of the
global `current_thread_id`, and the trace. -/
structure ChatOut where
  resp : ChatResp
  threadState : Option String
  trace : ChatTrace
deriving Repr, DecidableEq

/-- The tail of `chat` once a thread id is at hand: call `send_message` and
map the result (`if response:` — the empty string is falsy). -/
def chatSend (env : Env) (tid : String) (tc : Nat) : ChatOut :=
  match sendMessage env with
  | (Except.error e, tr) => ⟨.err 500 e.msg, some tid, ⟨tc, tr⟩⟩
  | (Except.ok none, tr) =>
    ⟨.err 500 "Failed to get response from agent", some tid, ⟨tc, tr⟩⟩
  | (Except.ok (some s), tr) =>
    if s = "" then ⟨.err 500 "Failed to get response from agent", some tid, ⟨tc, tr⟩⟩
    else ⟨.ok200 s tid, some tid, ⟨tc, tr⟩⟩

/-- The `/chat` handler.  `cur` is the global `current_thread_id`; `message`
is the request body's `message` field (`none` when absent;
`data.get('message', '')` makes it `''`). -/
def chat (env : Env) (cur : Option String) (message : Option String) : ChatOut :=
  let msg := message.getD ""
  if msg = "" then ⟨.err 400 "No message provided", cur, ⟨0, emptyTrace⟩⟩
  else
    match cur with
    | some tid => chatSend env tid 0
    | none =>
      match env.createThreadResult with
      | some tid => chatSend env tid 1
      | none => ⟨.err 500 "Failed to create conversation thread", none, ⟨1, emptyTrace⟩⟩

end Agent

namespace App

/-- `app.py`'s polling loop.  It differs from `agent.py`'s in three ways:
`required_action` is indexed directly (`run_data['required_action']`, a
`KeyError` when absent); the detail object is chosen by field presence
(`required_action.get("submit_tool_outputs") or
required_action.get("submit_tool_approval") or {}`) rather than by the
`type` string; after a successful approval submission it `continue`s
(skipping the sleep). -/
def pollLoop (env : Env) : Nat → Nat → Nat → Trace → (Except Exc (Option String)) × Trace
  | 0, _, _, tr => (.ok (some fallbackMsg), tr)
  | fuel + 1, p, s, tr =>
    let r := env.poll p
    let tr1 : Trace := { tr with statusRequests := tr.statusRequests + 1 }
    if r.code = 200 then
      if r.run.status = "completed" then
        if env.messagesCode = 200 then
          match scanMessages env.messages with
          | some (Except.ok v) => (.ok (some v), tr1)
          | some (Except.error e) => (.error e, tr1)
          | none => (.ok (some fallbackMsg), tr1)
        else (.ok (some fallbackMsg), tr1)
      else if r.run.status = "requires_action" then
        match r.run.required_action with
        | none => (.error (.keyError "required_action"), tr1)
        | some ra =>
          let calls := (ra.submit_tool_outputs.orElse
            fun _ => ra.submit_tool_approval).getD []
          if calls ≠ [] then
            let tool_approvals := mkApprovals calls
            if tool_approvals ≠ [] then
              let tr2 : Trace :=
                { tr1 with submissions := tr1.submissions ++ [tool_approvals] }
              if env.submitCode s ≠ 200 then (.ok (some fallbackMsg), tr2)
              else pollLoop env fuel (p + 1) (s + 1) tr2
            else (.ok (some fallbackMsg), tr1)
          else (.ok (some fallbackMsg), tr1)
      else if r.run.status = "failed" ∨ r.run.status = "cancelled"
          ∨ r.run.status = "expired" then
        (.ok (some fallbackMsg), tr1)
      else
        pollLoop env fuel (p + 1) s { tr1 with sleeps := tr1.sleeps + 1 }
    else
      pollLoop env fuel (p + 1) s { tr1 with sleeps := tr1.sleeps + 1 }

/-- `app.py`'s `send_message` (identical wrapper around its loop). -/
def sendMessage (env : Env) : (Except Exc (Option String)) × Trace :=
  if env.addMessageCode = 200 ∨ env.addMessageCode = 201 then
    if env.createRunCode = 200 ∨ env.createRunCode = 201 then
      pollLoop env 30 0 0 { emptyTrace with msgPosts := 1, runCreates := 1 }
    else (.ok none, { emptyTrace with msgPosts := 1, runCreates := 1 })
  else (.ok none, { emptyTrace with msgPosts := 1 })

end App

/-- A poll response on which the loop neither exits nor acts: a non-200
response, or a 200 whose status is none of the five the loop dispatches on
(e.g. `queued`, `in_progress`).  The code then just sleeps and retries. -/
def nonAdvancing (r : PollResp) : Prop :=
  r.code ≠ 200 ∨ (r.run.status ≠ "completed" ∧ r.run.status ≠ "requires_action"
    ∧ r.run.status ≠ "failed" ∧ r.run.status ≠ "cancelled" ∧ r.run.status ≠ "expired")

/-- A `requires_action` run body carrying its pending calls under the GA
(primary) field name `submit_tool_outputs`. -/
def primaryRun (tcs : List ToolCall) : RunData :=
  ⟨"requires_action", some ⟨"submit_tool_outputs", some tcs, none⟩⟩

/-- The same pending calls under the legacy preview field name
`submit_tool_approval`. -/
def legacyRun (tcs : List ToolCall) : RunData :=
  ⟨"requires_action", some ⟨"submit_tool_approval", none, some tcs⟩⟩

/-- An environment whose status endpoint always answers HTTP 500. -/
def stuckEnv : Env :=
  ⟨201, 201, fun _ => ⟨500, ⟨"", none⟩⟩, 200, [], fun _ => 200, some "T"⟩

/-- An environment whose run stays `in_progress` forever. -/
def busyEnv : Env :=
  ⟨201, 201, fun _ => ⟨200, ⟨"in_progress", none⟩⟩, 200, [], fun _ => 200, some "T"⟩

/-- An environment whose run immediately reports `failed`. -/
def failEnv : Env :=
  ⟨201, 201, fun _ => ⟨200, ⟨"failed", none⟩⟩, 200, [], fun _ => 200, some "T"⟩

/-- An environment realising the `queued → requires_action → completed`
lifecycle with one pending MCP call and a well-formed assistant reply. -/
def happyEnv : Env :=
  ⟨201, 201,
    fun i =>
      if i = 0 then ⟨200, ⟨"queued", none⟩⟩
      else if i = 1 then ⟨200, primaryRun [⟨some "mcp", "call_1"⟩, ⟨some "function", "call_2"⟩]⟩
      else ⟨200, ⟨"completed", none⟩⟩,
    200,
    [⟨"user", [⟨some ⟨some "hi"⟩⟩]⟩, ⟨"assistant", [⟨some ⟨some "hello!"⟩⟩]⟩],
    fun _ => 200, some "T"⟩

/-- A completed run whose first assistant message has an empty `content`
list, so `msg['content'][0]` raises `IndexError`. -/
def emptyContentEnv : Env :=
  ⟨201, 201, fun _ => ⟨200, ⟨"completed", none⟩⟩, 200,
    [⟨"assistant", []⟩], fun _ => 200, some "T"⟩

/-- A completed run whose messages contain no assistant-role entry. -/
def noAssistantEnv : Env :=
  ⟨201, 201, fun _ => ⟨200, ⟨"completed", none⟩⟩, 200,
    [⟨"user", [⟨some ⟨some "hi"⟩⟩]⟩], fun _ => 200, some "T"⟩

/-- An environment that keeps reporting `requires_action` with one pending
MCP call under the primary field name. -/
def raEnv : Env :=
  ⟨201, 201, fun _ => ⟨200, primaryRun [⟨some "mcp", "c1"⟩]⟩, 200, [],
    fun _ => 200, some "T"⟩

/-! ### Helper lemmas -/

lemma scanMessages_eq_find (msgs : List Msg) :
    scanMessages msgs
      = (msgs.find? fun m => m.role == "assistant").map extractContent := by
  induction msgs with
  | nil => rfl
  | cons m rest ih =>
    by_cases h : m.role = "assistant"
    · rw [List.find?_cons_of_pos _ (by simp [h])]
      simp [scanMessages, h]
    · rw [List.find?_cons_of_neg _ (by simp [h])]
      simp [scanMessages, h, ih]

lemma scanMessages_eq_none (msgs : List Msg)
    (h : ∀ m ∈ msgs, m.role ≠ "assistant") : scanMessages msgs = none := by
  induction msgs with
  | nil => rfl
  | cons m rest ih =>
    simp only [scanMessages, if_neg (h m (List.mem_cons_self m rest))]
    exact ih fun x hx => h x (List.mem_cons_of_mem m hx)

lemma mkApprovals_ids (tcs : List ToolCall) :
    (mkApprovals tcs).map ToolApproval.tool_call_id
      = (tcs.filter fun tc => tc.ty = some "mcp").map ToolCall.id := by
  induction tcs with
  | nil => rfl
  | cons tc rest ih =>
    by_cases h : tc.ty = some "mcp" <;>
      simp [mkApprovals, List.filterMap_cons, List.filter_cons, h] <;>
      simpa [mkApprovals] using ih

lemma mkApprovals_fields (tcs : List ToolCall) :
    ∀ a ∈ mkApprovals tcs, a.approve = true ∧ a.headers = [] := by
  intro a ha
  simp only [mkApprovals, List.mem_filterMap] at ha
  obtain ⟨tc, -, htc⟩ := ha
  by_cases h : tc.ty = some "mcp"
  · rw [if_pos h] at htc
    cases htc
    exact ⟨rfl, rfl⟩
  · rw [if_neg h] at htc
    cases htc

lemma primaryRun_status (tcs : List ToolCall) :
    (primaryRun tcs).status = "requires_action" := rfl

lemma primaryRun_ra (tcs : List ToolCall) :
    (primaryRun tcs).required_action
      = some ⟨"submit_tool_outputs", some tcs, none⟩ := rfl

lemma legacyRun_status (tcs : List ToolCall) :
    (legacyRun tcs).status = "requires_action" := rfl

lemma legacyRun_ra (tcs : List ToolCall) :
    (legacyRun tcs).required_action
      = some ⟨"submit_tool_approval", none, some tcs⟩ := rfl

lemma mkApprovals_ne_nil (tcs : List ToolCall)
    (h : ∃ tc ∈ tcs, tc.ty = some "mcp") : mkApprovals tcs ≠ [] := by
  obtain ⟨tc, hm, ht⟩ := h
  have hmem : (⟨tc.id, true, []⟩ : ToolApproval) ∈ mkApprovals tcs := by
    simp only [mkApprovals, List.mem_filterMap]
    exact ⟨tc, hm, by rw [if_pos ht]⟩
  intro hnil
  rw [hnil] at hmem
  exact absurd hmem (List.not_mem_nil _)

namespace Agent

lemma pollLoop_skip (env : Env) (fuel p s : Nat) (tr : Trace)
    (h : nonAdvancing (env.poll p)) :
    pollLoop env (fuel + 1) p s tr
      = pollLoop env fuel (p + 1) s
          ⟨tr.statusRequests + 1, tr.submissions, tr.sleeps + 1,
            tr.runCreates, tr.msgPosts⟩ := by
  rcases h with h | ⟨h1, h2, h3, h4, h5⟩
  · simp [pollLoop, h]
  · by_cases hc : (env.poll p).code = 200 <;>
      simp [pollLoop, hc, h1, h2, h3, h4, h5]

lemma pollLoop_submit (env : Env) (fuel p s : Nat) (tr : Trace)
    (tcs : List ToolCall) (sta : Option (List ToolCall))
    (h : env.poll p = ⟨200, ⟨"requires_action",
      some ⟨"submit_tool_outputs", some tcs, sta⟩⟩⟩)
    (hne : mkApprovals tcs ≠ []) (hsub : env.submitCode s = 200) :
    pollLoop env (fuel + 1) p s tr
      = pollLoop env fuel (p + 1) (s + 1)
          ⟨tr.statusRequests + 1, tr.submissions ++ [mkApprovals tcs],
            tr.sleeps + 1, tr.runCreates, tr.msgPosts⟩ := by
  simp [pollLoop, h, raToolCalls, hne, hsub]

lemma pollLoop_completed_ok (env : Env) (fuel p s : Nat) (tr : Trace) (v : String)
    (hc : (env.poll p).code = 200) (hs : (env.poll p).run.status = "completed")
    (hmc : env.messagesCode = 200)
    (hscan : scanMessages env.messages = some (Except.ok v)) :
    pollLoop env (fuel + 1) p s tr
      = (.ok (some v), ⟨tr.statusRequests + 1, tr.submissions, tr.sleeps,
          tr.runCreates, tr.msgPosts⟩) := by
  simp [pollLoop, hc, hs, hmc, hscan]

lemma pollLoop_completed_err (env : Env) (fuel p s : Nat) (tr : Trace) (e : Exc)
    (hc : (env.poll p).code = 200) (hs : (env.poll p).run.status = "completed")
    (hmc : env.messagesCode = 200)
    (hscan : scanMessages env.messages = some (Except.error e)) :
    pollLoop env (fuel + 1) p s tr
      = (.error e, ⟨tr.statusRequests + 1, tr.submissions, tr.sleeps,
          tr.runCreates, tr.msgPosts⟩) := by
  simp [pollLoop, hc, hs, hmc, hscan]

lemma pollLoop_completed_none (env : Env) (fuel p s : Nat) (tr : Trace)
    (hc : (env.poll p).code = 200) (hs : (env.poll p).run.status = "completed")
    (hmc : env.messagesCode = 200)
    (hscan : scanMessages env.messages = none) :
    pollLoop env (fuel + 1) p s tr
      = (.ok (some fallbackMsg), ⟨tr.statusRequests + 1, tr.submissions,
          tr.sleeps, tr.runCreates, tr.msgPosts⟩) := by
  simp [pollLoop, hc, hs, hmc, hscan]

lemma pollLoop_terminal (env : Env) (fuel p s : Nat) (tr : Trace)
    (hc : (env.poll p).code = 200)
    (hs : (env.poll p).run.status = "failed" ∨ (env.poll p).run.status = "cancelled"
      ∨ (env.poll p).run.status = "expired") :
    pollLoop env (fuel + 1) p s tr
      = (.ok (some fallbackMsg), ⟨tr.statusRequests + 1, tr.submissions,
          tr.sleeps, tr.runCreates, tr.msgPosts⟩) := by
  rcases hs with h | h | h <;> simp [pollLoop, hc, h]

lemma sendMessage_eq_pollLoop (env : Env)
    (hAdd : env.addMessageCode = 200 ∨ env.addMessageCode = 201)
    (hRun : env.createRunCode = 200 ∨ env.createRunCode = 201) :
    sendMessage env = pollLoop env 30 0 0 ⟨0, [], 0, 1, 1⟩ := by
  simp [sendMessage, hAdd, hRun, emptyTrace]

lemma pollLoop_stuck (env : Env) (fuel : Nat) : ∀ (p s : Nat) (tr : Trace),
    (∀ i, p ≤ i → i < p + fuel → nonAdvancing (env.poll i)) →
    pollLoop env fuel p s tr
      = (.ok (some fallbackMsg), ⟨tr.statusRequests + fuel, tr.submissions,
          tr.sleeps + fuel, tr.runCreates, tr.msgPosts⟩) := by
  induction fuel with
  | zero => intro p s tr _; rfl
  | succ fuel ih =>
    intro p s tr h
    rw [pollLoop_skip env fuel p s tr (h p le_rfl (by omega))]
    rw [ih (p + 1) s _ (fun i h1 h2 => h i (by omega) (by omega))]
    simp only [Prod.mk.injEq, Trace.mk.injEq, true_and, and_true]
    constructor <;> omega

lemma pollLoop_update_legacy (env : Env) (j : Nat) (tcs : List ToolCall)
    (h : env.poll j = ⟨200, primaryRun tcs⟩) (fuel : Nat) :
    ∀ (p s : Nat) (tr : Trace),
      pollLoop { env with poll := Function.update env.poll j ⟨200, legacyRun tcs⟩ }
          fuel p s tr
        = pollLoop env fuel p s tr := by
  induction fuel with
  | zero => intro p s tr; rfl
  | succ fuel ih =>
    intro p s tr
    by_cases hp : p = j
    · subst hp
      simp [pollLoop, Function.update_same, h, primaryRun_status, primaryRun_ra,
        legacyRun_status, legacyRun_ra, raToolCalls, ih]
    · have hup : Function.update env.poll j ⟨200, legacyRun tcs⟩ p = env.poll p :=
        Function.update_noteq hp _ _
      simp [pollLoop, hup, ih]

lemma chatSend_threadState (env : Env) (tid : String) (tc : Nat) :
    (chatSend env tid tc).threadState = some tid := by
  simp only [chatSend]
  rcases hsm : sendMessage env with ⟨r, tr⟩
  rcases r with e | o
  · rfl
  · rcases o with - | s
    · rfl
    · by_cases hs : s = "" <;> simp [hs]

lemma chatSend_threadCreates (env : Env) (tid : String) (tc : Nat) :
    (chatSend env tid tc).trace.threadCreates = tc := by
  simp only [chatSend]
  rcases hsm : sendMessage env with ⟨r, tr⟩
  rcases r with e | o
  · rfl
  · rcases o with - | s
    · rfl
    · by_cases hs : s = "" <;> simp [hs]

lemma chatSend_ok200 (env : Env) (tid : String) (tc : Nat) (r t : String)
    (h : (chatSend env tid tc).resp = ChatResp.ok200 r t) : t = tid := by
  simp only [chatSend] at h
  rcases hsm : sendMessage env with ⟨res, tr⟩
  rw [hsm] at h
  rcases res with e | o
  · cases h
  · rcases o with - | s
    · cases h
    · by_cases hs : s = "" <;> simp [hs] at h
      exact h.2.symm

end Agent

namespace App

lemma pollLoop_update_legacy_app (env : Env) (j : Nat) (tcs : List ToolCall)
    (h : env.poll j = ⟨200, primaryRun tcs⟩) (fuel : Nat) :
    ∀ (p s : Nat) (tr : Trace),
      pollLoop { env with poll := Function.update env.poll j ⟨200, legacyRun tcs⟩ }
          fuel p s tr
        = pollLoop env fuel p s tr := by
  induction fuel with
  | zero => intro p s tr; rfl
  | succ fuel ih =>
    intro p s tr
    by_cases hp : p = j
    · subst hp
      simp [pollLoop, Function.update_same, h, primaryRun_status, primaryRun_ra,
        legacyRun_status, legacyRun_ra, Option.orElse, ih]
    · have hup : Function.update env.poll j ⟨200, legacyRun tcs⟩ p = env.poll p :=
        Function.update_noteq hp _ _
      simp [pollLoop, hup, ih]

end App

/-! ### Claim theorems -/

/-- C1: for a run whose polled status sequence is `queued`, then
`requires_action` with a well-formed `submit_tool_outputs` payload (its
`tool_calls` containing at least one call of type `mcp`, the submission
accepted), then `completed`, `send_message` issues exactly one approval
submission, whose records all have `approve = true` and empty `headers` and
cover exactly the tool calls of type `mcp`, and returns the text of the
first assistant-role message. -/
theorem claim1_happy_path_one_submission (env : Env) (tcs : List ToolCall)
    (m : Msg) (v : String)
    (hAdd : env.addMessageCode = 200 ∨ env.addMessageCode = 201)
    (hRun : env.createRunCode = 200 ∨ env.createRunCode = 201)
    (h0 : env.poll 0 = ⟨200, ⟨"queued", none⟩⟩)
    (h1 : env.poll 1 = ⟨200, primaryRun tcs⟩)
    (h2c : (env.poll 2).code = 200) (h2s : (env.poll 2).run.status = "completed")
    (hmcp : ∃ tc ∈ tcs, tc.ty = some "mcp")
    (hsub : env.submitCode 0 = 200)
    (hmc : env.messagesCode = 200)
    (hfind : (env.messages.find? fun m0 => m0.role == "assistant") = some m)
    (hex : extractContent m = Except.ok v) :
    ∃ ap : List ToolApproval,
      Agent.sendMessage env = (.ok (some v), ⟨3, [ap], 2, 1, 1⟩)
      ∧ ap.map ToolApproval.tool_call_id
          = (tcs.filter fun tc => tc.ty = some "mcp").map ToolCall.id
      ∧ ∀ a ∈ ap, a.approve = true ∧ a.headers = [] := by
  refine ⟨mkApprovals tcs, ?_, mkApprovals_ids tcs, mkApprovals_fields tcs⟩
  have hscan : scanMessages env.messages = some (Except.ok v) := by
    rw [scanMessages_eq_find, hfind]
    simp [hex]
  rw [Agent.sendMessage_eq_pollLoop env hAdd hRun,
    show (30 : ℕ) = 29 + 1 from rfl,
    Agent.pollLoop_skip env 29 0 0 _ (by rw [h0]; exact Or.inr (by simp [nonAdvancing])),
    show (29 : ℕ) = 28 + 1 from rfl,
    Agent.pollLoop_submit env 28 1 0 _ tcs none (by simpa [primaryRun] using h1)
      (mkApprovals_ne_nil tcs hmcp) hsub,
    show (28 : ℕ) = 27 + 1 from rfl,
    Agent.pollLoop_completed_ok env 27 2 1 _ v h2c h2s hmc hscan]
  rfl

/-- C1 witness: the lifecycle realised concretely by `happyEnv`. -/
theorem claim1_witness :
    ∃ ap : List ToolApproval,
      Agent.sendMessage happyEnv = (.ok (some "hello!"), ⟨3, [ap], 2, 1, 1⟩)
      ∧ ap.map ToolApproval.tool_call_id
          = (([⟨some "mcp", "call_1"⟩, ⟨some "function", "call_2"⟩] : List ToolCall).filter
              fun tc => tc.ty = some "mcp").map ToolCall.id
      ∧ ∀ a ∈ ap, a.approve = true ∧ a.headers = [] :=
  claim1_happy_path_one_submission happyEnv
    [⟨some "mcp", "call_1"⟩, ⟨some "function", "call_2"⟩]
    ⟨"assistant", [⟨some ⟨some "hello!"⟩⟩]⟩ "hello!"
    (Or.inr rfl) (Or.inr rfl) rfl rfl rfl rfl (by decide) rfl rfl (by decide) rfl

/-- C2: a `requires_action` payload that carries its pending tool calls
under the legacy field name `submit_tool_approval` is handled exactly as the
identical payload under the primary field name `submit_tool_outputs`: both
orchestrator variants (`agent.py` and `app.py`) produce the same result and
the same submitted approval records. -/
theorem claim2_legacy_field_equivalence (env : Env) (j : Nat) (tcs : List ToolCall)
    (h : env.poll j = ⟨200, primaryRun tcs⟩) :
    Agent.sendMessage
        { env with poll := Function.update env.poll j ⟨200, legacyRun tcs⟩ }
      = Agent.sendMessage env
    ∧ App.sendMessage
        { env with poll := Function.update env.poll j ⟨200, legacyRun tcs⟩ }
      = App.sendMessage env := by
  constructor
  · simp [Agent.sendMessage, Agent.pollLoop_update_legacy env j tcs h 30]
  · simp [App.sendMessage, App.pollLoop_update_legacy_app env j tcs h 30]

/-- C2 witness: swapping `raEnv`'s first poll to the legacy field name. -/
theorem claim2_witness :
    Agent.sendMessage
        { raEnv with
          poll := Function.update raEnv.poll 0 ⟨200, legacyRun [⟨some "mcp", "c1"⟩]⟩ }
      = Agent.sendMessage raEnv
    ∧ App.sendMessage
        { raEnv with
          poll := Function.update raEnv.poll 0 ⟨200, legacyRun [⟨some "mcp", "c1"⟩]⟩ }
      = App.sendMessage raEnv :=
  claim2_legacy_field_equivalence raEnv 0 [⟨some "mcp", "c1"⟩] rfl

/-- C3: a run that yields 30 consecutive non-terminal (`in_progress` or
`queued`) 200-responses makes the loop terminate by exhausting its attempt
budget: exactly 30 status requests, a `time.sleep(1)` between consecutive
polls (30 sleep calls in all), no approval submission, and the fixed
fallback string as result. -/
theorem claim3_poll_budget_timeout (env : Env)
    (hAdd : env.addMessageCode = 200 ∨ env.addMessageCode = 201)
    (hRun : env.createRunCode = 200 ∨ env.createRunCode = 201)
    (hPoll : ∀ i < 30, (env.poll i).code = 200
      ∧ ((env.poll i).run.status = "in_progress" ∨ (env.poll i).run.status = "queued")) :
    Agent.sendMessage env = (.ok (some fallbackMsg), ⟨30, [], 30, 1, 1⟩) := by
  have hna : ∀ i, 0 ≤ i → i < 0 + 30 → nonAdvancing (env.poll i) := by
    intro i _ hi
    obtain ⟨hc, hs⟩ := hPoll i (by omega)
    rcases hs with hs | hs <;> exact Or.inr (by simp [hs])
  rw [Agent.sendMessage_eq_pollLoop env hAdd hRun,
    Agent.pollLoop_stuck env 30 0 0 _ hna]

/-- C3 witness: an endpoint that answers `in_progress` forever. -/
theorem claim3_witness :
    Agent.sendMessage busyEnv = (.ok (some fallbackMsg), ⟨30, [], 30, 1, 1⟩) :=
  claim3_poll_budget_timeout busyEnv (Or.inr rfl) (Or.inr rfl)
    (fun _ _ => ⟨rfl, Or.inl rfl⟩)

/-- C4 counterexample: in `failEnv` the run ends `failed`, yet the handler
answers with a *success* body — `send_message` returns the (truthy) fallback
string, so `if response:` takes the 200 branch — refuting the claim that an
error body is returned on run failure. -/
theorem claim4_counterexample :
    (Agent.chat failEnv (some "T") (some "hello")).resp
      = Agent.ChatResp.ok200 fallbackMsg "T" := rfl

/-- C4 amended: for every chat request whose run ends in failure
(`failed`/`cancelled`/`expired`) or in poll-budget timeout, `handleChat`
returns a 200 success body whose response text is the fixed fallback string
and whose thread id is the cached thread — not an error body — so no
upstream detail is leaked to the client. -/
theorem claim4_amended_fallback_success_body (env : Env) (t msg : String)
    (hmsg : msg ≠ "")
    (hAdd : env.addMessageCode = 200 ∨ env.addMessageCode = 201)
    (hRun : env.createRunCode = 200 ∨ env.createRunCode = 201) :
    (((env.poll 0).code = 200
        ∧ ((env.poll 0).run.status = "failed" ∨ (env.poll 0).run.status = "cancelled"
          ∨ (env.poll 0).run.status = "expired")) →
      (Agent.chat env (some t) (some msg)).resp = Agent.ChatResp.ok200 fallbackMsg t)
    ∧ ((∀ i < 30, nonAdvancing (env.poll i)) →
      (Agent.chat env (some t) (some msg)).resp = Agent.ChatResp.ok200 fallbackMsg t) := by
  have hchat : Agent.chat env (some t) (some msg) = Agent.chatSend env t 0 := by
    simp [Agent.chat, hmsg]
  constructor
  · rintro ⟨hc, hs⟩
    have hsm : Agent.sendMessage env = (.ok (some fallbackMsg), ⟨1, [], 0, 1, 1⟩) := by
      rw [Agent.sendMessage_eq_pollLoop env hAdd hRun,
        show (30 : ℕ) = 29 + 1 from rfl,
        Agent.pollLoop_terminal env 29 0 0 _ hc hs]
    rw [hchat]
    simp [Agent.chatSend, hsm, fallbackMsg]
  · intro h
    have hsm : Agent.sendMessage env = (.ok (some fallbackMsg), ⟨30, [], 30, 1, 1⟩) := by
      rw [Agent.sendMessage_eq_pollLoop env hAdd hRun,
        Agent.pollLoop_stuck env 30 0 0 _ (fun i _ hi => h i (by omega))]
    rw [hchat]
    simp [Agent.chatSend, hsm, fallbackMsg]

/-- C4 witness: the amended behaviour at `failEnv` (failure) and `busyEnv`
(timeout). -/
theorem claim4_witness :
    (Agent.chat failEnv (some "T") (some "hi")).resp
      = Agent.ChatResp.ok200 fallbackMsg "T"
    ∧ (Agent.chat busyEnv (some "T") (some "hi")).resp
      = Agent.ChatResp.ok200 fallbackMsg "T" :=
  ⟨(claim4_amended_fallback_success_body failEnv "T" "hi" (by decide)
      (Or.inr rfl) (Or.inr rfl)).1 ⟨rfl, Or.inl rfl⟩,
   (claim4_amended_fallback_success_body busyEnv "T" "hi" (by decide)
      (Or.inr rfl) (Or.inr rfl)).2 (fun i _ => Or.inr (by simp [busyEnv]))⟩

/-- C5: when the first poll reports a terminal failure status (`failed`,
`cancelled` or `expired`), and likewise when a `completed` run's message list
contains no assistant-role entry, `send_message` raises no exception and
returns the fixed fallback string. -/
theorem claim5_failure_and_no_assistant_fallback (env : Env)
    (hAdd : env.addMessageCode = 200 ∨ env.addMessageCode = 201)
    (hRun : env.createRunCode = 200 ∨ env.createRunCode = 201) :
    (((env.poll 0).code = 200
        ∧ ((env.poll 0).run.status = "failed" ∨ (env.poll 0).run.status = "cancelled"
          ∨ (env.poll 0).run.status = "expired")) →
      Agent.sendMessage env = (.ok (some fallbackMsg), ⟨1, [], 0, 1, 1⟩))
    ∧ (((env.poll 0).code = 200 ∧ (env.poll 0).run.status = "completed"
        ∧ env.messagesCode = 200 ∧ ∀ m ∈ env.messages, m.role ≠ "assistant") →
      Agent.sendMessage env = (.ok (some fallbackMsg), ⟨1, [], 0, 1, 1⟩)) := by
  constructor
  · rintro ⟨hc, hs⟩
    rw [Agent.sendMessage_eq_pollLoop env hAdd hRun,
      show (30 : ℕ) = 29 + 1 from rfl,
      Agent.pollLoop_terminal env 29 0 0 _ hc hs]
  · rintro ⟨hc, hs, hmc, hno⟩
    rw [Agent.sendMessage_eq_pollLoop env hAdd hRun,
      show (30 : ℕ) = 29 + 1 from rfl,
      Agent.pollLoop_completed_none env 29 0 0 _ hc hs hmc
        (scanMessages_eq_none env.messages hno)]

/-- C5 witness: a run failing outright, and a completed run with no
assistant message. -/
theorem claim5_witness :
    Agent.sendMessage failEnv = (.ok (some fallbackMsg), ⟨1, [], 0, 1, 1⟩)
    ∧ Agent.sendMessage noAssistantEnv
      = (.ok (some fallbackMsg), ⟨1, [], 0, 1, 1⟩) :=
  ⟨(claim5_failure_and_no_assistant_fallback failEnv (Or.inr rfl) (Or.inr rfl)).1
      ⟨rfl, Or.inl rfl⟩,
   (claim5_failure_and_no_assistant_fallback noAssistantEnv (Or.inr rfl) (Or.inr rfl)).2
      ⟨rfl, rfl, rfl, by decide⟩⟩

/-- C6: for every non-empty message, the `/chat` handler produces exactly
one of two outcomes — a success body (response string plus thread id) or an
error body — never both, never neither. -/
theorem claim6_chat_dichotomy (env : Env) (cur : Option String) (msg : String)
    (_hmsg : msg ≠ "") :
    ((∃ r t, (Agent.chat env cur (some msg)).resp = Agent.ChatResp.ok200 r t)
      ∧ ¬∃ c e, (Agent.chat env cur (some msg)).resp = Agent.ChatResp.err c e)
    ∨ ((∃ c e, (Agent.chat env cur (some msg)).resp = Agent.ChatResp.err c e)
      ∧ ¬∃ r t, (Agent.chat env cur (some msg)).resp = Agent.ChatResp.ok200 r t) := by
  cases hresp : (Agent.chat env cur (some msg)).resp with
  | ok200 r t =>
    exact Or.inl ⟨⟨r, t, rfl⟩, by
      rintro ⟨c, e, he⟩
      exact Agent.ChatResp.noConfusion he⟩
  | err c e =>
    exact Or.inr ⟨⟨c, e, rfl⟩, by
      rintro ⟨r, t, he⟩
      exact Agent.ChatResp.noConfusion he⟩

/-- C6 witness: the dichotomy at a concrete request. -/
theorem claim6_witness :
    ((∃ r t, (Agent.chat busyEnv (some "T") (some "hi")).resp = Agent.ChatResp.ok200 r t)
      ∧ ¬∃ c e, (Agent.chat busyEnv (some "T") (some "hi")).resp = Agent.ChatResp.err c e)
    ∨ ((∃ c e, (Agent.chat busyEnv (some "T") (some "hi")).resp = Agent.ChatResp.err c e)
      ∧ ¬∃ r t, (Agent.chat busyEnv (some "T") (some "hi")).resp
          = Agent.ChatResp.ok200 r t) :=
  claim6_chat_dichotomy busyEnv (some "T") "hi" (by decide)

/-- C7: the conversation thread is created at most once per process
lifetime: a call entered with a cached thread id never creates a thread,
never overwrites the cached id, and any success response carries that id;
consequently the second of two consecutive calls reuses the id cached by the
first. -/
theorem claim7_thread_cached_once (env env2 : Env) (b b2 : Option String)
    (t : String) :
    ((Agent.chat env2 (some t) b2).threadState = some t
      ∧ (Agent.chat env2 (some t) b2).trace.threadCreates = 0
      ∧ ∀ r tid, (Agent.chat env2 (some t) b2).resp = Agent.ChatResp.ok200 r tid
          → tid = t)
    ∧ ((Agent.chat env none b).threadState = some t →
        (Agent.chat env2 (Agent.chat env none b).threadState b2).threadState = some t
        ∧ (Agent.chat env2 (Agent.chat env none b).threadState b2).trace.threadCreates
            = 0) := by
  have main : (Agent.chat env2 (some t) b2).threadState = some t
      ∧ (Agent.chat env2 (some t) b2).trace.threadCreates = 0
      ∧ ∀ r tid, (Agent.chat env2 (some t) b2).resp = Agent.ChatResp.ok200 r tid
          → tid = t := by
    by_cases hb : b2.getD "" = ""
    · refine ⟨by simp [Agent.chat, hb], by simp [Agent.chat, hb], ?_⟩
      intro r tid h
      simp only [Agent.chat, hb, if_pos] at h
      exact Agent.ChatResp.noConfusion h
    · have hcs : Agent.chat env2 (some t) b2 = Agent.chatSend env2 t 0 := by
        simp [Agent.chat, hb]
      rw [hcs]
      exact ⟨Agent.chatSend_threadState env2 t 0, Agent.chatSend_threadCreates env2 t 0,
        fun r tid h => Agent.chatSend_ok200 env2 t 0 r tid h⟩
  exact ⟨main, fun h => by rw [h]; exact ⟨main.1, main.2.1⟩⟩

/-- C7 witness: two consecutive calls; the first caches thread `"T"`
(created via `busyEnv.createThreadResult`), the second reuses it without
creating another thread. -/
theorem claim7_witness :
    (Agent.chat busyEnv (some "T") (some "more")).threadState = some "T"
    ∧ (Agent.chat busyEnv (Agent.chat busyEnv none (some "hi")).threadState
        (some "more")).trace.threadCreates = 0 :=
  ⟨(claim7_thread_cached_once busyEnv busyEnv (some "hi") (some "more") "T").1.1,
   ((claim7_thread_cached_once busyEnv busyEnv (some "hi") (some "more") "T").2
      rfl).2⟩

/-- C8: a `/chat` request whose body lacks a `message` field or carries an
empty message yields exactly HTTP 400 with body
`{"error": "No message provided"}`, leaves the cached thread untouched, and
neither creates a thread nor posts a message nor starts a run (the whole
trace is zero). -/
theorem claim8_empty_message_400 (env : Env) (cur : Option String) :
    Agent.chat env cur none
      = ⟨Agent.ChatResp.err 400 "No message provided", cur, ⟨0, emptyTrace⟩⟩
    ∧ Agent.chat env cur (some "")
      = ⟨Agent.ChatResp.err 400 "No message provided", cur, ⟨0, emptyTrace⟩⟩ :=
  ⟨rfl, rfl⟩

/-- C9: a run-status poll answered with a non-200 code never makes the loop
terminate and raises no error: it consumes exactly one attempt (one more
status request, one more sleep, no submission) and polling resumes; hence an
endpoint that always fails can only end through the 30-attempt timeout path
with the fallback string. -/
theorem claim9_non200_poll_consumes_attempt :
    (∀ (env : Env) (fuel p s : Nat) (tr : Trace), (env.poll p).code ≠ 200 →
      Agent.pollLoop env (fuel + 1) p s tr
        = Agent.pollLoop env fuel (p + 1) s
            ⟨tr.statusRequests + 1, tr.submissions, tr.sleeps + 1,
              tr.runCreates, tr.msgPosts⟩)
    ∧ ∀ env : Env,
        (env.addMessageCode = 200 ∨ env.addMessageCode = 201) →
        (env.createRunCode = 200 ∨ env.createRunCode = 201) →
        (∀ i, (env.poll i).code ≠ 200) →
        Agent.sendMessage env = (.ok (some fallbackMsg), ⟨30, [], 30, 1, 1⟩) := by
  constructor
  · intro env fuel p s tr h
    exact Agent.pollLoop_skip env fuel p s tr (Or.inl h)
  · intro env hAdd hRun h
    rw [Agent.sendMessage_eq_pollLoop env hAdd hRun,
      Agent.pollLoop_stuck env 30 0 0 _ (fun i _ _ => Or.inl (h i))]

/-- C9 witness: `stuckEnv`'s status endpoint always answers 500. -/
theorem claim9_witness :
    Agent.pollLoop stuckEnv 1 0 0 emptyTrace
      = Agent.pollLoop stuckEnv 0 1 0 ⟨1, [], 1, 0, 0⟩
    ∧ Agent.sendMessage stuckEnv = (.ok (some fallbackMsg), ⟨30, [], 30, 1, 1⟩) :=
  ⟨claim9_non200_poll_consumes_attempt.1 stuckEnv 0 0 0 emptyTrace (by decide),
   claim9_non200_poll_consumes_attempt.2 stuckEnv (Or.inr rfl) (Or.inr rfl)
     (fun i => by simp [stuckEnv])⟩

/-- C10: on a completed run whose first assistant message has an empty
`content` list or lacks the `text`/`value` fields, the unguarded
`msg['content'][0]['text']['value']` raises an exception that escapes
`send_message`, and the `/chat` handler converts it to HTTP 500 with an
error body echoing `str(e)`. -/
theorem claim10_malformed_content_raises (env : Env) (t msg : String)
    (m : Msg) (e : Exc)
    (hmsg : msg ≠ "")
    (hAdd : env.addMessageCode = 200 ∨ env.addMessageCode = 201)
    (hRun : env.createRunCode = 200 ∨ env.createRunCode = 201)
    (h0 : (env.poll 0).code = 200) (hs : (env.poll 0).run.status = "completed")
    (hmc : env.messagesCode = 200)
    (hfind : (env.messages.find? fun m0 => m0.role == "assistant") = some m)
    (hex : extractContent m = Except.error e) :
    Agent.sendMessage env = (.error e, ⟨1, [], 0, 1, 1⟩)
    ∧ (Agent.chat env (some t) (some msg)).resp = Agent.ChatResp.err 500 e.msg := by
  have hscan : scanMessages env.messages = some (Except.error e) := by
    rw [scanMessages_eq_find, hfind]
    simp [hex]
  have hsm : Agent.sendMessage env = (.error e, ⟨1, [], 0, 1, 1⟩) := by
    rw [Agent.sendMessage_eq_pollLoop env hAdd hRun,
      show (30 : ℕ) = 29 + 1 from rfl,
      Agent.pollLoop_completed_err env 29 0 0 _ e h0 hs hmc hscan]
  refine ⟨hsm, ?_⟩
  simp [Agent.chat, hmsg, Agent.chatSend, hsm]

/-- C10 witness: an assistant message with an empty `content` list raises
`IndexError` and the handler answers 500 with its text. -/
theorem claim10_witness :
    Agent.sendMessage emptyContentEnv = (.error Exc.indexError, ⟨1, [], 0, 1, 1⟩)
    ∧ (Agent.chat emptyContentEnv (some "T") (some "hi")).resp
      = Agent.ChatResp.err 500 Exc.indexError.msg :=
  claim10_malformed_content_raises emptyContentEnv "T" "hi"
    ⟨"assistant", []⟩ Exc.indexError (by decide) (Or.inr rfl) (Or.inr rfl)
    rfl rfl rfl (by decide) rfl

end AzureMcp
